import Mathlib

/-!
Verification of the pmem2 default data mover (`src/libpmem2/mover.c`).

Shallow embedding notes:
- External side effects are recorded as an explicit event trace (`Event`):
  calls to the region's durable memcpy/memmove functions (obtained via
  `pmem2_get_memcpy_fn` / `pmem2_get_memmove_fn` from the bound map), the
  release-ordered store of the completion flag, `membuf_free` of an
  operation slot, and `free` of a mover under construction.
- `FATAL(...)` aborts the process and never returns; it is modelled by the
  function returning `none`, which carries no recoverable error code.
- The membuf arena allocator (`core/membuf.c`, not part of this slice) is
  abstracted: `membuf_alloc`'s outcome is a parameter of type
  `Option DataMoverOp` (the raw slot, contents arbitrary), and
  `membuf_ptr_user_data(data)` — recovery of the owning mover from a slot
  pointer — is modelled by passing the owning `DataMover` explicitly.
- `pmem2_malloc` and `membuf_new` outcomes in `mover_new` are likewise
  parameters, with the error codes they would produce.
-/

namespace Mover

/-- Operation kinds of the virtual data mover. `memcpy` and `memmove` are the
two kinds `mover.c` handles; `memset` and `flush` stand for the further kinds
of the vdm header family, which reach the `default:` (fatal) branch here. -/
inductive VdmOperationType where
  | memcpy
  | memmove
  | memset
  | flush
deriving DecidableEq, Repr

/-- Future states from the miniasync future header; `mover.c` only ever
produces `idle` and `complete`. -/
inductive FutureState where
  | idle
  | running
  | complete
deriving DecidableEq, Repr

/-- Values of the `notifier_used` field of `struct future_notifier`. -/
inductive FutureNotifierUsed where
  | fnNone
  | fnWaker
  | fnPoller
deriving DecidableEq, Repr

/-- Model of `struct future_notifier`: the `notifier_used` tag plus the
waker/poller payloads, kept abstract as numbers. -/
structure FutureNotifier where
  notifier_used : FutureNotifierUsed
  waker : Nat
  poller : Nat
deriving DecidableEq, Repr

/-- Model of `struct pmem2_map`: an identity for the mapped region (which
determines the durable memcpy/memmove functions the region hands out) and
the `vdm` field holding the region's mover handle. -/
structure Pmem2Map where
  id : Nat
  vdm : Nat
deriving DecidableEq, Repr

/-- Abstract handle to a membuf arena (`struct membuf`). -/
structure Membuf where
  id : Nat
deriving DecidableEq, Repr

/-- Model of `struct data_mover`: the vdm base vtable is implicit (it is the
fixed `data_mover_vdm` table of the four sync operations); the mover keeps
the bound map and its membuf arena. -/
structure DataMover where
  map : Pmem2Map
  membuf : Membuf
deriving DecidableEq, Repr

/-- Model of `struct vdm_operation`. The C struct holds a `type` tag and a
union; `mover.c` reads only `data.memcpy.dest`, `data.memcpy.src` and
`data.memcpy.n` (for memmove operations too, relying on the identical union
layout), so a single record of those three fields is faithful. -/
structure VdmOperation where
  type : VdmOperationType
  dest : Nat
  src : Nat
  n : Nat
deriving DecidableEq, Repr

/-- Model of `struct data_mover_op`: the embedded operation and the `int`
completion flag (C truthiness: any nonzero value reads as complete). -/
structure DataMoverOp where
  op : VdmOperation
  complete : Nat
deriving DecidableEq, Repr

/-- Result codes of `struct vdm_operation_output`; `mover.c` only produces
`success` (`VDM_SUCCESS`). -/
inductive VdmResult where
  | success
  | err
deriving DecidableEq, Repr

/-- Model of `struct vdm_operation_output`: kind tag, result code, and the
destination address echoed back (the `memcpy`/`memmove` union members have
the same single `dest` field). -/
structure VdmOperationOutput where
  type : VdmOperationType
  result : VdmResult
  dest : Nat
deriving DecidableEq, Repr

/-- The non-temporal durability hint `PMEM2_F_MEM_NONTEMPORAL` from
`libpmem2.h` (header not in this slice); kept as a symbolic flag value.
The claims depend only on this exact constant being passed. -/
def PMEM2_F_MEM_NONTEMPORAL : Nat := 2

/-- Externally observable side effects of the mover code, in program order:
a call to the region's durable memcpy function (tagged with the map identity
the function was obtained from, plus the arguments), likewise for memmove,
the release-ordered atomic store of the completion flag, `membuf_free` of
the operation slot, and `free` of a partially constructed mover. -/
inductive Event where
  | memcpyFn (mapId dest src n flags : Nat)
  | memmoveFn (mapId dest src n flags : Nat)
  | storeCompleteRelease
  | membufFree
  | freeDms
deriving DecidableEq, Repr

/-- What `sync_operation_check` returns: translation of
`complete ? FUTURE_STATE_COMPLETE : FUTURE_STATE_IDLE` after the
acquire load of the flag. -/
def sync_operation_check (sync_op : DataMoverOp) : FutureState :=
  if sync_op.complete ≠ 0 then FutureState.complete else FutureState.idle

/-- Translation of `sync_operation_new`. The `type` argument is received and
ignored (`SUPPRESS_UNUSED(type)`); `slot` is the outcome of
`membuf_alloc(vdm_sync->membuf, sizeof(struct data_mover_op))` — `none` for a
NULL return, otherwise the raw slot with arbitrary prior contents. On
success the code sets `sync_op->complete = 0` and returns the slot. -/
def sync_operation_new (type : VdmOperationType) (slot : Option DataMoverOp) :
    Option DataMoverOp :=
  match slot with
  | none => none
  | some sync_op => some { sync_op with complete := 0 }

/-- Result of a successful `sync_operation_delete`: the filled-in
`vdm_operation_output` and the trace of effects (the `membuf_free`). -/
structure DeleteResult where
  output : VdmOperationOutput
  events : List Event
deriving DecidableEq, Repr

/-- Translation of `sync_operation_delete`. Sets `output->result =
VDM_SUCCESS`, then switches on `operation->type`: memcpy and memmove both
echo `operation->data.memcpy.dest` into the output (the memmove branch
reads the `memcpy` union member, which aliases it), then `membuf_free(data)`.
The `default:` branch is `FATAL` — modelled as `none` (the process aborts;
no recoverable error is returned and the slot is not freed). -/
def sync_operation_delete (data : DataMoverOp) (operation : VdmOperation) :
    Option DeleteResult :=
  match operation.type with
  | VdmOperationType.memcpy =>
      some { output := { type := VdmOperationType.memcpy,
                         result := VdmResult.success,
                         dest := operation.dest },
             events := [Event.membufFree] }
  | VdmOperationType.memmove =>
      some { output := { type := VdmOperationType.memmove,
                         result := VdmResult.success,
                         dest := operation.dest },
             events := [Event.membufFree] }
  | _ => none

/-- Result of a successful `sync_operation_start`: the event trace in
program order, the operation state after the call, the notifier out-param
after the call, and the `int` return value. -/
structure StartResult where
  events : List Event
  state_after : DataMoverOp
  notifier_out : Option FutureNotifier
  ret : Int
deriving DecidableEq, Repr

/-- Translation of `sync_operation_start`. `mover` stands for
`membuf_ptr_user_data(data)` (the mover owning the slot). If the notifier
pointer is non-NULL its `notifier_used` is set to `FUTURE_NOTIFIER_NONE`.
Then the switch on `operation->type`: memcpy calls the function returned by
`pmem2_get_memcpy_fn(mover->map)` on `(dest, src, n,
PMEM2_F_MEM_NONTEMPORAL)`; memmove likewise with
`pmem2_get_memmove_fn`; `default:` is `FATAL` (modelled `none`). After the
durable call the completion flag is stored to 1 with release ordering, and
the function returns 0. -/
def sync_operation_start (data : DataMoverOp) (mover : DataMover)
    (operation : VdmOperation) (n : Option FutureNotifier) :
    Option StartResult :=
  let n2 := n.map fun nt => { nt with notifier_used := FutureNotifierUsed.fnNone }
  match operation.type with
  | VdmOperationType.memcpy =>
      some { events := [Event.memcpyFn mover.map.id operation.dest
                          operation.src operation.n PMEM2_F_MEM_NONTEMPORAL,
                        Event.storeCompleteRelease],
             state_after := { data with complete := 1 },
             notifier_out := n2,
             ret := 0 }
  | VdmOperationType.memmove =>
      some { events := [Event.memmoveFn mover.map.id operation.dest
                          operation.src operation.n PMEM2_F_MEM_NONTEMPORAL,
                        Event.storeCompleteRelease],
             state_after := { data with complete := 1 },
             notifier_out := n2,
             ret := 0 }
  | _ => none

/-- The `PMEM2_E_ERRNO` macro from `pmem2_utils.h` (header not in this
slice): the current errno value negated, surfacing the underlying system
error as a libpmem2 error code. -/
def PMEM2_E_ERRNO (errnoVal : Int) : Int := -errnoVal

/-- Result of `mover_new`: the `int` return value, the mover written through
the `vdm` out-parameter (`none` when the call failed and no live mover
remains), and the trace of effects. -/
structure MoverNewResult where
  ret : Int
  vdm : Option DataMover
  events : List Event
deriving DecidableEq, Repr

/-- Translation of `mover_new`. `malloc_res`/`malloc_err` model the outcome
of `pmem2_malloc(sizeof(*dms), &ret)` (slot or NULL, and the error code it
stores); `membuf_res` models `membuf_new(dms)` and `errno_val` the errno at
its failure. On malloc failure the error code is returned. Otherwise the
mover is bound to `map`; if `membuf_new` fails, the mover allocation is
freed (`Event.freeDms`) and `PMEM2_E_ERRNO` is returned; on success the
bound mover with its fresh membuf is produced with return value 0. -/
def mover_new (map : Pmem2Map) (malloc_res : Option Unit) (malloc_err : Int)
    (membuf_res : Option Membuf) (errno_val : Int) : MoverNewResult :=
  match malloc_res with
  | none => { ret := malloc_err, vdm := none, events := [] }
  | some _ =>
      match membuf_res with
      | none => { ret := PMEM2_E_ERRNO errno_val, vdm := none,
                  events := [Event.freeDms] }
      | some mb => { ret := 0, vdm := some { map := map, membuf := mb },
                     events := [] }

/-- The future value produced by the vdm entry points: the mover it was
submitted to, the operation descriptor, and the flags value passed down to
the vdm layer. -/
structure VdmOperationFuture where
  vdm : Nat
  operation : VdmOperation
  vdmFlags : Nat
deriving DecidableEq, Repr

/-- Modelled from the spec: `vdm_memcpy` (miniasync vdm layer, not in this
slice) produces a copy-kind operation future over the given mover via the
operation future protocol, recording the submitted arguments. -/
def vdm_memcpy (vdm : Nat) (dest src n flags : Nat) : VdmOperationFuture :=
  { vdm := vdm,
    operation := { type := VdmOperationType.memcpy,
                   dest := dest, src := src, n := n },
    vdmFlags := flags }

/-- Modelled from the spec: `vdm_memmove` (miniasync vdm layer, not in this
slice) produces a move-kind operation future over the given mover via the
operation future protocol, recording the submitted arguments. -/
def vdm_memmove (vdm : Nat) (dest src n flags : Nat) : VdmOperationFuture :=
  { vdm := vdm,
    operation := { type := VdmOperationType.memmove,
                   dest := dest, src := src, n := n },
    vdmFlags := flags }

/-- Translation of `pmem2_memcpy_async`: ignores `flags`
(`SUPPRESS_UNUSED(flags)`) and returns
`vdm_memcpy(map->vdm, pmemdest, src, len, 0)`. -/
def pmem2_memcpy_async (map : Pmem2Map) (pmemdest src len flags : Nat) :
    VdmOperationFuture :=
  vdm_memcpy map.vdm pmemdest src len 0

/-- Modelled from the spec: `pmem2_memmove_async` (the `move_async` public
entry point) is part of this repository but lies beyond the end of the
slice of `mover.c` under `src/`; per spec 4.4 it is "same as
`copy_async`, move kind": ignores `flags` and returns
`vdm_memmove(map->vdm, pmemdest, src, len, 0)`. -/
def pmem2_memmove_async (map : Pmem2Map) (pmemdest src len flags : Nat) :
    VdmOperationFuture :=
  vdm_memmove map.vdm pmemdest src len 0

/-- C1: for a copy operation, `op_start` calls the region's durable-copy
function on the operation's (dest, src, n) with the non-temporal hint; for a
move operation it calls the region's durable-move function with the same
arguments and hint; in both cases the completion flag is stored to set
(release ordering) after the durable write, and this is the whole observable
behaviour of the call. -/
theorem sync_operation_start_dispatch (data : DataMoverOp) (mover : DataMover)
    (operation : VdmOperation) (n : Option FutureNotifier) :
    (operation.type = VdmOperationType.memcpy →
      sync_operation_start data mover operation n =
        some { events := [Event.memcpyFn mover.map.id operation.dest
                            operation.src operation.n PMEM2_F_MEM_NONTEMPORAL,
                          Event.storeCompleteRelease],
               state_after := { data with complete := 1 },
               notifier_out := n.map fun nt =>
                 { nt with notifier_used := FutureNotifierUsed.fnNone },
               ret := 0 }) ∧
    (operation.type = VdmOperationType.memmove →
      sync_operation_start data mover operation n =
        some { events := [Event.memmoveFn mover.map.id operation.dest
                            operation.src operation.n PMEM2_F_MEM_NONTEMPORAL,
                          Event.storeCompleteRelease],
               state_after := { data with complete := 1 },
               notifier_out := n.map fun nt =>
                 { nt with notifier_used := FutureNotifierUsed.fnNone },
               ret := 0 }) := by
  constructor <;> intro h <;> simp [sync_operation_start, h]

/-- Closed witness for `sync_operation_start_dispatch` at concrete inputs,
discharging each kind hypothesis. -/
theorem sync_operation_start_dispatch_witness :
    sync_operation_start ⟨⟨VdmOperationType.memcpy, 0, 0, 0⟩, 0⟩
        ⟨⟨7, 1⟩, ⟨4⟩⟩ ⟨VdmOperationType.memcpy, 10, 20, 30⟩ none =
      some { events := [Event.memcpyFn 7 10 20 30 PMEM2_F_MEM_NONTEMPORAL,
                        Event.storeCompleteRelease],
             state_after := ⟨⟨VdmOperationType.memcpy, 0, 0, 0⟩, 1⟩,
             notifier_out := none, ret := 0 } ∧
    sync_operation_start ⟨⟨VdmOperationType.memmove, 0, 0, 0⟩, 0⟩
        ⟨⟨7, 1⟩, ⟨4⟩⟩ ⟨VdmOperationType.memmove, 10, 20, 30⟩ none =
      some { events := [Event.memmoveFn 7 10 20 30 PMEM2_F_MEM_NONTEMPORAL,
                        Event.storeCompleteRelease],
             state_after := ⟨⟨VdmOperationType.memmove, 0, 0, 0⟩, 1⟩,
             notifier_out := none, ret := 0 } :=
  ⟨(sync_operation_start_dispatch ⟨⟨VdmOperationType.memcpy, 0, 0, 0⟩, 0⟩
      ⟨⟨7, 1⟩, ⟨4⟩⟩ ⟨VdmOperationType.memcpy, 10, 20, 30⟩ none).1 rfl,
   (sync_operation_start_dispatch ⟨⟨VdmOperationType.memmove, 0, 0, 0⟩, 0⟩
      ⟨⟨7, 1⟩, ⟨4⟩⟩ ⟨VdmOperationType.memmove, 10, 20, 30⟩ none).2 rfl⟩

/-- C2: `op_check` returns Complete iff the completion flag is set (nonzero);
any handle just produced by `op_new` checks as Idle; and the state produced
by any successful `op_start` checks as Complete — so a single-threaded
driver observes no Idle after `start` returns. -/
theorem sync_operation_check_state_machine :
    (∀ op : DataMoverOp,
      sync_operation_check op = FutureState.complete ↔ op.complete ≠ 0) ∧
    (∀ (t : VdmOperationType) (slot h : DataMoverOp),
      sync_operation_new t (some slot) = some h →
      sync_operation_check h = FutureState.idle) ∧
    (∀ (data : DataMoverOp) (mover : DataMover) (operation : VdmOperation)
       (n : Option FutureNotifier) (r : StartResult),
      sync_operation_start data mover operation n = some r →
      sync_operation_check r.state_after = FutureState.complete) := by
  refine ⟨fun op => ?_, fun t slot h hnew => ?_, fun data mover operation n r hst => ?_⟩
  · unfold sync_operation_check
    split <;> simp_all
  · simp only [sync_operation_new, Option.some.injEq] at hnew
    subst hnew
    simp [sync_operation_check]
  · rcases operation with ⟨ty, d, s, len⟩
    cases ty <;> simp only [sync_operation_start, Option.some.injEq] at hst <;>
      first
        | (subst hst; simp [sync_operation_check])
        | exact absurd hst (by simp)

/-- Closed witness for `sync_operation_check_state_machine`: the Idle and
Complete implications applied at concrete inputs. -/
theorem sync_operation_check_state_machine_witness :
    sync_operation_check ⟨⟨VdmOperationType.memcpy, 1, 2, 3⟩, 0⟩ =
      FutureState.idle ∧
    sync_operation_check
        (StartResult.state_after
          { events := [Event.memcpyFn 7 10 20 30 PMEM2_F_MEM_NONTEMPORAL,
                       Event.storeCompleteRelease],
            state_after := ⟨⟨VdmOperationType.memcpy, 1, 2, 3⟩, 1⟩,
            notifier_out := none, ret := 0 }) = FutureState.complete :=
  ⟨sync_operation_check_state_machine.2.1 VdmOperationType.memset
      ⟨⟨VdmOperationType.memcpy, 1, 2, 3⟩, 5⟩
      ⟨⟨VdmOperationType.memcpy, 1, 2, 3⟩, 0⟩ rfl,
   sync_operation_check_state_machine.2.2
      ⟨⟨VdmOperationType.memcpy, 1, 2, 3⟩, 0⟩ ⟨⟨7, 1⟩, ⟨4⟩⟩
      ⟨VdmOperationType.memcpy, 10, 20, 30⟩ none _ rfl⟩

/-- C3: for a completed operation of copy or move kind, `op_delete` produces
an output whose kind equals the operation's kind, whose result is success,
and whose destination equals the operation's destination, and it frees the
operation slot back to the allocator. -/
theorem sync_operation_delete_output (data : DataMoverOp)
    (operation : VdmOperation)
    (hdone : sync_operation_check data = FutureState.complete)
    (hkind : operation.type = VdmOperationType.memcpy ∨
             operation.type = VdmOperationType.memmove) :
    ∃ r : DeleteResult, sync_operation_delete data operation = some r ∧
      r.output.type = operation.type ∧
      r.output.result = VdmResult.success ∧
      r.output.dest = operation.dest ∧
      r.events = [Event.membufFree] := by
  rcases operation with ⟨ty, d, s, len⟩
  cases ty <;>
    first
      | exact ⟨_, rfl, rfl, rfl, rfl, rfl⟩
      | simp at hkind

/-- Closed witness for `sync_operation_delete_output` at a concrete
completed copy operation. -/
theorem sync_operation_delete_output_witness :
    ∃ r : DeleteResult,
      sync_operation_delete ⟨⟨VdmOperationType.memcpy, 5, 6, 7⟩, 1⟩
          ⟨VdmOperationType.memcpy, 5, 6, 7⟩ = some r ∧
      r.output.type = VdmOperationType.memcpy ∧
      r.output.result = VdmResult.success ∧
      r.output.dest = 5 ∧
      r.events = [Event.membufFree] :=
  sync_operation_delete_output ⟨⟨VdmOperationType.memcpy, 5, 6, 7⟩, 1⟩
    ⟨VdmOperationType.memcpy, 5, 6, 7⟩ (by decide) (Or.inl rfl)

/-- C4: the `move_async` public entry point takes (region, dest, src,
length, flags), resolves the region's mover, and produces a move-kind
future via the operation future protocol, analogous to `copy_async`
(flags likewise not forwarded). -/
theorem pmem2_memmove_async_spec (map : Pmem2Map) (d s l f : Nat) :
    pmem2_memmove_async map d s l f = vdm_memmove map.vdm d s l 0 ∧
    (pmem2_memmove_async map d s l f).vdm = map.vdm ∧
    (pmem2_memmove_async map d s l f).operation =
      { type := VdmOperationType.memmove, dest := d, src := s, n := l } :=
  ⟨rfl, rfl, rfl⟩

/-- C5: `mover_new` binds the mover to the given map and builds its membuf
arena. If `membuf_new` fails, the mover allocation is freed (no mover is
left live) and the `PMEM2_E_ERRNO` code — the negated system errno — is
returned; on success the return value is 0 and the new bound mover is
produced. -/
theorem mover_new_spec (map : Pmem2Map) (merr : Int) (mb : Membuf)
    (errv : Int) :
    mover_new map (some ()) merr none errv =
      { ret := PMEM2_E_ERRNO errv, vdm := none,
        events := [Event.freeDms] } ∧
    PMEM2_E_ERRNO errv = -errv ∧
    mover_new map (some ()) merr (some mb) errv =
      { ret := 0, vdm := some { map := map, membuf := mb }, events := [] } :=
  ⟨rfl, rfl, rfl⟩

/-- C6: `op_new` returns no handle exactly when the allocator yields no
slot, and any handle it does return has its completion flag initialized
to 0 (false). -/
theorem sync_operation_new_spec (t : VdmOperationType) (slot : DataMoverOp) :
    sync_operation_new t none = none ∧
    (∃ h : DataMoverOp, sync_operation_new t (some slot) = some h ∧
      h.complete = 0) :=
  ⟨rfl, ⟨_, rfl, rfl⟩⟩

/-- C7: an operation whose kind is neither copy nor move makes both
`op_start` and `op_delete` hit the FATAL branch (modelled `none`): the
process aborts and no recoverable error value is returned by either. -/
theorem unsupported_kind_fatal (data : DataMoverOp) (mover : DataMover)
    (operation : VdmOperation) (n : Option FutureNotifier)
    (h1 : operation.type ≠ VdmOperationType.memcpy)
    (h2 : operation.type ≠ VdmOperationType.memmove) :
    sync_operation_start data mover operation n = none ∧
    sync_operation_delete data operation = none := by
  rcases operation with ⟨ty, d, s, len⟩
  cases ty <;>
    simp_all [sync_operation_start, sync_operation_delete]

/-- Closed witness for `unsupported_kind_fatal` at a memset-kind
operation. -/
theorem unsupported_kind_fatal_witness :
    sync_operation_start ⟨⟨VdmOperationType.memset, 0, 0, 0⟩, 0⟩
        ⟨⟨7, 1⟩, ⟨4⟩⟩ ⟨VdmOperationType.memset, 1, 2, 3⟩ none = none ∧
    sync_operation_delete ⟨⟨VdmOperationType.memset, 0, 0, 0⟩, 0⟩
        ⟨VdmOperationType.memset, 1, 2, 3⟩ = none :=
  unsupported_kind_fatal ⟨⟨VdmOperationType.memset, 0, 0, 0⟩, 0⟩
    ⟨⟨7, 1⟩, ⟨4⟩⟩ ⟨VdmOperationType.memset, 1, 2, 3⟩ none
    (by decide) (by decide)

/-- C8: for every copy or move operation, `op_start` returns 0, and when a
notifier out-parameter is supplied it is set to `FUTURE_NOTIFIER_NONE`
("no notifier — poll"). -/
theorem sync_operation_start_notifier (data : DataMoverOp)
    (mover : DataMover) (operation : VdmOperation) (nt : FutureNotifier)
    (hkind : operation.type = VdmOperationType.memcpy ∨
             operation.type = VdmOperationType.memmove) :
    ∃ r : StartResult,
      sync_operation_start data mover operation (some nt) = some r ∧
      r.ret = 0 ∧
      r.notifier_out =
        some { nt with notifier_used := FutureNotifierUsed.fnNone } := by
  rcases operation with ⟨ty, d, s, len⟩
  cases ty <;>
    first
      | exact ⟨_, rfl, rfl, rfl⟩
      | simp at hkind

/-- Closed witness for `sync_operation_start_notifier` at a concrete copy
operation with a waker notifier supplied. -/
theorem sync_operation_start_notifier_witness :
    ∃ r : StartResult,
      sync_operation_start ⟨⟨VdmOperationType.memcpy, 0, 0, 0⟩, 0⟩
          ⟨⟨7, 1⟩, ⟨4⟩⟩ ⟨VdmOperationType.memcpy, 10, 20, 30⟩
          (some ⟨FutureNotifierUsed.fnWaker, 8, 9⟩) = some r ∧
      r.ret = 0 ∧
      r.notifier_out = some ⟨FutureNotifierUsed.fnNone, 8, 9⟩ :=
  sync_operation_start_notifier ⟨⟨VdmOperationType.memcpy, 0, 0, 0⟩, 0⟩
    ⟨⟨7, 1⟩, ⟨4⟩⟩ ⟨VdmOperationType.memcpy, 10, 20, 30⟩
    ⟨FutureNotifierUsed.fnWaker, 8, 9⟩ (Or.inl rfl)

/-- C9: `pmem2_memcpy_async` ignores its `flags` argument — two calls
differing only in flags produce identical futures (the code passes the
literal 0 to the vdm layer regardless of `flags`). -/
theorem pmem2_memcpy_async_flags_ignored (map : Pmem2Map)
    (d s l f1 f2 : Nat) :
    pmem2_memcpy_async map d s l f1 = pmem2_memcpy_async map d s l f2 :=
  rfl

/-- C10: `op_new` ignores the requested operation kind: its result is the
same function of the allocator outcome for any two kinds, and it succeeds
whenever the allocator returns a slot, for every kind including unsupported
ones. -/
theorem sync_operation_new_kind_independent (t1 t2 : VdmOperationType)
    (slot : Option DataMoverOp) :
    sync_operation_new t1 slot = sync_operation_new t2 slot ∧
    (∀ s : DataMoverOp, (sync_operation_new t1 (some s)).isSome) := by
  refine ⟨?_, fun s => rfl⟩
  cases slot <;> rfl

end Mover
